import Mathlib

/-!
Shallow embedding of the TwitterBot facade from the repository's single
source file (index.js). The external twitter-api-v2 client is modelled
as an abstract Provider oracle whose operations may succeed or fail;
each bot operation is translated together with its try/catch structure,
the network calls it performs and the log lines it emits, so that the
claims about return values, call counts and logging can be stated and
proved against the translation.
-/

set_option autoImplicit false

set_option maxRecDepth 8192

/-- An error raised by the external API client: an optional numeric
code (the JavaScript error.code field, possibly undefined) and a
message. -/
structure ApiError where
  code : Option Nat
  message : String
deriving DecidableEq

/-- The payload of a created tweet (tweet.data): its id and text. -/
structure TweetData where
  id : String
  text : String
deriving DecidableEq

/-- The external twitter-api-v2 client, as an oracle. tweet takes the
index of the call within the operation (so a run can be made to fail at
a chosen position), the message, and the optional in_reply_to_tweet_id
taken from the reply options; it either returns tweet.data or throws an
ApiError. -/
structure Provider where
  tweet : Nat → String → Option String → Except ApiError TweetData
  deleteTweet : String → Except ApiError Unit
  me : Except ApiError String

inductive LogLevel where
  | info
  | error
deriving DecidableEq

structure LogEntry where
  level : LogLevel
  message : String
deriving DecidableEq

/-- A network call performed against the external API. -/
inductive ApiCall where
  | createTweet (message : String) (replyTo : Option String)
  | deleteTweet (tweetId : String)
deriving DecidableEq

/-- A JavaScript exception: either an error thrown by the API client
(carrying its code) or a plain new Error / TypeError, whose code field
is undefined. -/
inductive JsError where
  | api (e : ApiError)
  | js (message : String)
deriving DecidableEq

def JsError.codeOf : JsError → Option Nat
  | JsError.api e => e.code
  | JsError.js _ => none

def JsError.messageOf : JsError → String
  | JsError.api e => e.message
  | JsError.js m => m

def isOkE {ε α : Type} : Except ε α → Bool
  | Except.ok _ => true
  | Except.error _ => false

def okPart {ε α : Type} : Except ε α → Option α
  | Except.ok v => some v
  | Except.error _ => none

/-- try/catch: run the body; a thrown error is passed to the handler,
which may in principle itself throw. -/
def jsTryCatch {α : Type} (body : Except JsError α)
    (handler : JsError → Except JsError α) : Except JsError α :=
  match body with
  | Except.ok v => Except.ok v
  | Except.error e => handler e

/-- JavaScript String.length counts UTF-16 code units: code points
above 0xFFFF count twice. -/
def utf16Length (s : String) : Nat :=
  s.data.foldl (fun n c => n + (if c.toNat < 65536 then 1 else 2)) 0

/-- process.env after dotenv.config: each of the five credential
variables is either absent or bound to a string. -/
structure EnvVars where
  apiKey : Option String
  apiSecret : Option String
  accessToken : Option String
  accessTokenSecret : Option String
  bearerToken : Option String
deriving DecidableEq

/-- JavaScript falsiness of a possibly-undefined string: !x holds
exactly when x is undefined or the empty string. -/
def falsyOpt : Option String → Bool
  | none => true
  | some s => s == ""

/-- The guard of _loadCredentials:
!apiKey || !apiSecret || !accessToken || !accessTokenSecret || !bearerToken. -/
def missingCredentials (env : EnvVars) : Bool :=
  falsyOpt env.apiKey || falsyOpt env.apiSecret || falsyOpt env.accessToken ||
    falsyOpt env.accessTokenSecret || falsyOpt env.bearerToken

/-- _loadCredentials: reads the five variables and throws when any is
missing or empty; its catch block logs and rethrows, so the error
propagates to the caller (the constructor). -/
def loadCredentials (env : EnvVars) : Except JsError EnvVars :=
  if missingCredentials env then
    Except.error (JsError.js "Missing required credentials in .env file")
  else
    Except.ok env

/-- _initializeClient: builds the session (new TwitterApi) and awaits
client.v2.me(); a rejection is logged and rethrown, rejecting the
promise this async method returns. On success the session p is usable. -/
def initializeClient (p : Provider) : Except JsError Provider :=
  match p.me with
  | Except.ok _ => Except.ok p
  | Except.error e => Except.error (JsError.api e)

/-- The constructed TwitterBot object: the five credential fields
assigned by _loadCredentials, and the outcome of the un-awaited
_initializeClient() call (the constructor invokes the async method
without awaiting it, so this outcome stays in a floating promise). -/
structure TwitterBot where
  apiKey : Option String
  apiSecret : Option String
  accessToken : Option String
  accessTokenSecret : Option String
  bearerToken : Option String
  initResult : Except JsError Provider

/-- The TwitterBot constructor: _loadCredentials runs synchronously and
may throw out of construction; _initializeClient() is called without
await, so its outcome lands in initResult and never makes the
constructor itself fail. -/
def mkTwitterBot (env : EnvVars) (p : Provider) : Except JsError TwitterBot :=
  match loadCredentials env with
  | Except.error e => Except.error e
  | Except.ok creds =>
      Except.ok ⟨creds.apiKey, creds.apiSecret, creds.accessToken,
        creds.accessTokenSecret, creds.bearerToken, initializeClient p⟩

/-- Whether the un-awaited initialization succeeded, for a constructed
bot; none when construction itself failed. -/
def botInitOk (r : Except JsError TwitterBot) : Option Bool :=
  Option.map (fun b => isOkE b.initResult) (okPart r)

/-- The observable outcome of one sendTweet run: the returned value
(tweet.data or null), the network calls made, and the log lines. -/
structure SendResult where
  result : Option TweetData
  calls : List ApiCall
  logs : List LogEntry
deriving DecidableEq

/-- sendTweet: validates the length first — an oversized message throws
new Error inside the try before client.v2.tweet is reached, and that
Error has no code field, so the catch logs the generic message and
returns null with no network call. Otherwise client.v2.tweet(message)
is called; on success the info line is logged and tweet.data returned;
a thrown provider error is logged (code 403 gets the access-level
message) and null is returned. -/
def sendTweet (p : Provider) (message : String) : SendResult :=
  if utf16Length message > 280 then
    ⟨none, [], [⟨LogLevel.error, "Error posting tweet: Tweet exceeds 280 characters"⟩]⟩
  else
    match p.tweet 0 message none with
    | Except.ok t =>
        ⟨some t, [ApiCall.createTweet message none],
          [⟨LogLevel.info, "Tweet posted successfully: " ++ message⟩]⟩
    | Except.error e =>
        ⟨none, [ApiCall.createTweet message none],
          [⟨LogLevel.error,
            (if e.code = some 403 then "Access level error: " else "Error posting tweet: ")
              ++ e.message⟩]⟩

/-- The reply options built from previousTweetId: the JavaScript
conditional previousTweetId ? { reply: ... } : {} tests truthiness, so
null and the empty string both produce empty options. -/
def truthyOpt : Option String → Option String
  | none => none
  | some s => if s = "" then none else some s

/-- State of the createThread loop body after it runs to completion or
until a throw: tweets accumulated, calls made, info lines logged, and
the error that terminated the loop, if any. -/
structure LoopOut where
  tweets : List TweetData
  calls : List ApiCall
  logs : List LogEntry
  err : Option ApiError

/-- The for-of loop of createThread: for each message, build the reply
options from previousTweetId, call client.v2.tweet, push tweet.data,
update previousTweetId to tweet.data.id, log; a thrown error terminates
the loop carrying the successful prefix. -/
def createThreadAux (p : Provider) : Nat → Option String → List String → LoopOut
  | _, _, [] => ⟨[], [], [], none⟩
  | idx, prev, m :: rest =>
    match p.tweet idx m (truthyOpt prev) with
    | Except.error e =>
        ⟨[], [ApiCall.createTweet m (truthyOpt prev)], [], some e⟩
    | Except.ok t =>
        ⟨t :: (createThreadAux p (idx + 1) (some t.id) rest).tweets,
         ApiCall.createTweet m (truthyOpt prev) :: (createThreadAux p (idx + 1) (some t.id) rest).calls,
         LogEntry.mk LogLevel.info ("Thread tweet posted: " ++ m)
           :: (createThreadAux p (idx + 1) (some t.id) rest).logs,
         (createThreadAux p (idx + 1) (some t.id) rest).err⟩

/-- The observable outcome of one createThread run. -/
structure ThreadResult where
  tweets : List TweetData
  calls : List ApiCall
  logs : List LogEntry
deriving DecidableEq

/-- createThread: runs the loop inside try; when the loop completes the
accumulated tweets are returned, and when a call throws the catch logs
the error and returns the tweets accumulated so far (no rollback, no
rethrow). -/
def createThread (p : Provider) (msgs : List String) : ThreadResult :=
  match (createThreadAux p 0 none msgs).err with
  | none =>
      ⟨(createThreadAux p 0 none msgs).tweets,
       (createThreadAux p 0 none msgs).calls,
       (createThreadAux p 0 none msgs).logs⟩
  | some e =>
      ⟨(createThreadAux p 0 none msgs).tweets,
       (createThreadAux p 0 none msgs).calls,
       (createThreadAux p 0 none msgs).logs
         ++ [LogEntry.mk LogLevel.error ("Error creating thread: " ++ e.message)]⟩

/-- deleteTweet: awaits client.v2.deleteTweet(tweetId) inside try and
returns true with an info log; the catch logs the error and returns
false. Modelled with the try/catch explicit so that the absence of an
escaping exception is a statement, not a typing accident. -/
def deleteTweetEx (p : Provider) (tweetId : String) : Except JsError (Bool × List LogEntry) :=
  jsTryCatch
    (match p.deleteTweet tweetId with
     | Except.ok _ =>
         Except.ok (true, [⟨LogLevel.info, "Tweet " ++ tweetId ++ " deleted successfully"⟩])
     | Except.error e => Except.error (JsError.api e))
    (fun err =>
      Except.ok (false, [⟨LogLevel.error, "Error deleting tweet: " ++ JsError.messageOf err⟩]))

/-- A JavaScript runtime value, for the behaviour of sendTweet on
arbitrary (also non-string) arguments. -/
inductive JsValue where
  | str (s : String)
  | num (n : Int)
  | boolV (b : Bool)
  | nullV
  | undef
  | obj
deriving DecidableEq

/-- Reading .length on a value: a string yields its UTF-16 length;
null and undefined throw a TypeError; other values yield undefined
(plain objects, numbers and booleans have no length property). -/
def jsLengthOf : JsValue → Except JsError JsValue
  | JsValue.str s => Except.ok (JsValue.num (utf16Length s))
  | JsValue.nullV => Except.error (JsError.js "Cannot read properties of null (reading length)")
  | JsValue.undef => Except.error (JsError.js "Cannot read properties of undefined (reading length)")
  | _ => Except.ok JsValue.undef

/-- The comparison x > 280 on the value read for .length: a number
compares numerically; undefined coerces to NaN and every comparison
with NaN is false. -/
def jsGt280 : JsValue → Bool
  | JsValue.num n => n > 280
  | _ => false

/-- Template-literal stringification of a value. -/
def jsToString : JsValue → String
  | JsValue.str s => s
  | JsValue.num n => toString n
  | JsValue.boolV b => if b then "true" else "false"
  | JsValue.nullV => "null"
  | JsValue.undef => "undefined"
  | JsValue.obj => "[object Object]"

/-- The try-block of sendTweet on a raw JavaScript argument: read
message.length (which itself may throw), test > 280 and throw the
validation Error on oversize, otherwise call the client, which may
throw anything. -/
def sendTweetJsBody (pt : JsValue → Except JsError TweetData)
    (message : JsValue) : Except JsError (Option TweetData × List LogEntry) :=
  match jsLengthOf message with
  | Except.error e => Except.error e
  | Except.ok len =>
      if jsGt280 len then
        Except.error (JsError.js "Tweet exceeds 280 characters")
      else
        match pt message with
        | Except.error e => Except.error e
        | Except.ok t =>
            Except.ok (some t, [⟨LogLevel.info, "Tweet posted successfully: " ++ jsToString message⟩])

/-- sendTweet at its boundary: the try-block wrapped by the catch,
which reads error.code, logs and returns null. -/
def sendTweetJs (pt : JsValue → Except JsError TweetData)
    (message : JsValue) : Except JsError (Option TweetData × List LogEntry) :=
  jsTryCatch (sendTweetJsBody pt message)
    (fun err =>
      Except.ok (none,
        [⟨LogLevel.error,
          (if JsError.codeOf err = some 403 then "Access level error: " else "Error posting tweet: ")
            ++ JsError.messageOf err⟩]))

/-- A provider for which every call succeeds, echoing the message text
with the constant id x. -/
def pAllOk : Provider where
  tweet := fun _ m _ => Except.ok ⟨"x", m⟩
  deleteTweet := fun _ => Except.ok ()
  me := Except.ok "user"

/-- A provider whose first tweet call succeeds and whose later tweet
calls are rejected. -/
def pFailAt1 : Provider where
  tweet := fun i m _ => if i < 1 then Except.ok ⟨"x", m⟩ else Except.error ⟨some 500, "boom"⟩
  deleteTweet := fun _ => Except.ok ()
  me := Except.ok "user"

/-- A provider that rejects every tweet call with an access-level 403
error. -/
def pErr403 : Provider where
  tweet := fun _ _ _ => Except.error ⟨some 403, "Forbidden"⟩
  deleteTweet := fun _ => Except.ok ()
  me := Except.ok "user"

/-- A provider whose identity check is rejected. -/
def pBad : Provider where
  tweet := fun _ _ _ => Except.error ⟨none, "no"⟩
  deleteTweet := fun _ => Except.error ⟨none, "no"⟩
  me := Except.error ⟨some 401, "Unauthorized"⟩

/-- A raw client call that always throws. -/
def ptBoom : JsValue → Except JsError TweetData :=
  fun _ => Except.error (JsError.js "network down")

/-- An environment holding all five credentials. -/
def envOk : EnvVars :=
  ⟨some "k", some "s", some "t", some "u", some "b"⟩

/-- An environment in which the api key variable is absent. -/
def envMissing : EnvVars :=
  ⟨none, some "s", some "t", some "u", some "b"⟩

/-- A message of 281 ASCII characters, one over the limit. -/
def msg281 : String := String.mk (List.replicate 281 'a')

/-- C4: for every text whose UTF-16 length exceeds 280, sendTweet
returns null, emits exactly the generic error log line, and performs no
network call. -/
theorem sendTweet_oversize (p : Provider) (message : String)
    (h : utf16Length message > 280) :
    sendTweet p message =
      ⟨none, [], [⟨LogLevel.error, "Error posting tweet: Tweet exceeds 280 characters"⟩]⟩ := by
  unfold sendTweet
  rw [if_pos h]

/-- Witness for C4 at a concrete 281-character message. -/
theorem sendTweet_oversize_witness :
    utf16Length msg281 > 280 ∧
      sendTweet pAllOk msg281 =
        ⟨none, [], [⟨LogLevel.error, "Error posting tweet: Tweet exceeds 280 characters"⟩]⟩ :=
  ⟨by decide, sendTweet_oversize pAllOk msg281 (by decide)⟩

/-- C5: deleteTweet never lets an exception escape, and the returned
boolean is true exactly when the provider confirmed the deletion. -/
theorem deleteTweet_result (p : Provider) (tweetId : String) :
    isOkE (deleteTweetEx p tweetId) = true ∧
      Option.map Prod.fst (okPart (deleteTweetEx p tweetId)) =
        some (isOkE (p.deleteTweet tweetId)) := by
  cases h : p.deleteTweet tweetId <;>
    simp [deleteTweetEx, jsTryCatch, h, isOkE, okPart]

/-- C6: when any of the five credential fields is missing or empty, the
constructor raises the missing-credentials error, so no bot object (and
hence no session) is produced. -/
theorem mkTwitterBot_missingCreds (env : EnvVars) (p : Provider)
    (h : missingCredentials env = true) :
    mkTwitterBot env p =
      Except.error (JsError.js "Missing required credentials in .env file") := by
  simp [mkTwitterBot, loadCredentials, h]

/-- Witness for C6 at an environment missing the api key. -/
theorem mkTwitterBot_missingCreds_witness :
    missingCredentials envMissing = true ∧
      mkTwitterBot envMissing pAllOk =
        Except.error (JsError.js "Missing required credentials in .env file") :=
  ⟨by decide, mkTwitterBot_missingCreds envMissing pAllOk (by decide)⟩

/-- Counterexample to C3: with all credentials present but the identity
check rejected by the provider, the constructor still succeeds — the
caller receives the client object, not an error. -/
theorem mkTwitterBot_c3_counterexample :
    isOkE pBad.me = false ∧ isOkE (mkTwitterBot envOk pBad) = true := by
  constructor
  · rfl
  · rfl

/-- C3 amended: construction fails exactly when a credential field is
missing or empty; when it succeeds, the outcome of the un-awaited
identity check is recorded in the floating initialization result, which
fails exactly when client.v2.me() is rejected — it never fails the
constructor. -/
theorem mkTwitterBot_amended (env : EnvVars) (p : Provider) :
    isOkE (mkTwitterBot env p) = !missingCredentials env ∧
      botInitOk (mkTwitterBot env p) =
        (if missingCredentials env then none else some (isOkE p.me)) := by
  cases h : missingCredentials env <;>
    cases hm : p.me <;>
      simp [mkTwitterBot, loadCredentials, botInitOk, initializeClient, isOkE, okPart, h, hm]

/-- C8: any provider rejection of an in-range message yields the same
return value null whatever the error code; only the single error log
line distinguishes code 403 from other failures. -/
theorem sendTweet_providerError (p : Provider) (message : String) (e : ApiError)
    (hlen : utf16Length message ≤ 280)
    (herr : p.tweet 0 message none = Except.error e) :
    (sendTweet p message).result = none ∧
      (sendTweet p message).calls = [ApiCall.createTweet message none] ∧
      (sendTweet p message).logs =
        [⟨LogLevel.error,
          (if e.code = some 403 then "Access level error: " else "Error posting tweet: ")
            ++ e.message⟩] := by
  have hnot : ¬ utf16Length message > 280 := by omega
  simp [sendTweet, hnot, herr]

/-- Witness for C8 at a concrete 403 rejection. -/
theorem sendTweet_providerError_witness :
    (sendTweet pErr403 "hi").result = none ∧
      (sendTweet pErr403 "hi").calls = [ApiCall.createTweet "hi" none] ∧
      (sendTweet pErr403 "hi").logs = [⟨LogLevel.error, "Access level error: Forbidden"⟩] := by
  have h := sendTweet_providerError pErr403 "hi" ⟨some 403, "Forbidden"⟩ (by decide) (by rfl)
  refine ⟨h.1, h.2.1, ?_⟩
  rw [h.2.2]
  decide

/-- C9: sendTweet is total at its boundary — for every JavaScript value
passed as the message and every behaviour of the client call, the
operation returns normally, and whenever the try-block threw the result
surfaced is null. -/
theorem sendTweetJs_total (pt : JsValue → Except JsError TweetData) (v : JsValue) :
    isOkE (sendTweetJs pt v) = true ∧
      (isOkE (sendTweetJsBody pt v) = false →
        Option.map Prod.fst (okPart (sendTweetJs pt v)) = some none) := by
  cases h : sendTweetJsBody pt v <;>
    simp [sendTweetJs, jsTryCatch, h, isOkE, okPart]

/-- Witness for C9 at the null message, whose .length read throws. -/
theorem sendTweetJs_total_witness :
    isOkE (sendTweetJs ptBoom JsValue.nullV) = true ∧
      Option.map Prod.fst (okPart (sendTweetJs ptBoom JsValue.nullV)) = some none :=
  ⟨(sendTweetJs_total ptBoom JsValue.nullV).1,
   (sendTweetJs_total ptBoom JsValue.nullV).2 (by decide)⟩

/-- C7: for an in-range message accepted by a provider that echoes the
submitted text, sendTweet returns a post whose body equals the input. -/
theorem sendTweet_echoesText (p : Provider) (message : String)
    (htf : ∀ i m o t, p.tweet i m o = Except.ok t → t.text = m)
    (hlen : utf16Length message ≤ 280)
    (hok : isOkE (p.tweet 0 message none) = true) :
    Option.map TweetData.text (sendTweet p message).result = some message := by
  have hnot : ¬ utf16Length message > 280 := by omega
  cases h : p.tweet 0 message none with
  | ok t =>
      have ht := htf 0 message none t h
      simp [sendTweet, hnot, h, ht]
  | error e =>
      rw [h] at hok
      simp [isOkE] at hok

/-- Witness for C7 at a concrete message and echoing provider. -/
theorem sendTweet_echoesText_witness :
    Option.map TweetData.text (sendTweet pAllOk "hi").result = some "hi" := by
  have htf : ∀ i m o t, pAllOk.tweet i m o = Except.ok t → t.text = m := by
    intro i m o t h
    simp [pAllOk] at h
    rw [← h]
  exact sendTweet_echoesText pAllOk "hi" htf (by decide) (by decide)

theorem truthyOpt_some_of_ne {s : String} (h : s ≠ "") : truthyOpt (some s) = some s := by
  simp [truthyOpt, h]

/-- Invariant of the createThread loop when every provider call
succeeds with a truthy id: one tweet per message, and the calls pair
the messages, in order, with no parent for the first submission and the
id of the previously created tweet for each later one. -/
theorem createThreadAux_allOk (p : Provider)
    (hp : ∀ i m o, ∃ t, p.tweet i m o = Except.ok t ∧ t.id ≠ "") :
    ∀ (msgs : List String) (idx : Nat) (prev : Option String),
      (createThreadAux p idx prev msgs).tweets.length = msgs.length ∧
      (createThreadAux p idx prev msgs).err = none ∧
      (createThreadAux p idx prev msgs).calls =
        List.zipWith ApiCall.createTweet msgs
          (truthyOpt prev :: (createThreadAux p idx prev msgs).tweets.map (fun t => some t.id)) ∧
      ∀ t ∈ (createThreadAux p idx prev msgs).tweets, t.id ≠ "" := by
  intro msgs
  induction msgs with
  | nil =>
      intro idx prev
      simp [createThreadAux]
  | cons m rest ih =>
      intro idx prev
      obtain ⟨t, ht, hid⟩ := hp idx m (truthyOpt prev)
      obtain ⟨h1, h2, h3, h4⟩ := ih (idx + 1) (some t.id)
      rw [truthyOpt_some_of_ne hid] at h3
      simp only [createThreadAux, ht]
      refine ⟨by simp [h1], h2, by simp [h3], ?_⟩
      intro t' ht'
      rcases List.mem_cons.mp ht' with h | h
      · subst h; exact hid
      · exact h4 t' h

/-- C1: when every submission succeeds (with the real provider's
nonempty ids), createThread posts the messages in input order: one post
per message, the first submitted with no parent and each later one
submitted with parent equal to the id of the post created just
before it. -/
theorem createThread_inputOrder (p : Provider) (msgs : List String)
    (hp : ∀ i m o, ∃ t, p.tweet i m o = Except.ok t ∧ t.id ≠ "") :
    (createThread p msgs).tweets.length = msgs.length ∧
      (createThread p msgs).calls =
        List.zipWith ApiCall.createTweet msgs
          (none :: (createThread p msgs).tweets.map (fun t => some t.id)) := by
  obtain ⟨h1, h2, h3, _⟩ := createThreadAux_allOk p hp msgs 0 none
  rw [show truthyOpt none = none from rfl] at h3
  constructor
  · simpa [createThread, h2] using h1
  · simpa [createThread, h2] using h3

/-- Witness for C1: the spec's example thread of three messages, with
an all-accepting provider whose ids are x. -/
theorem createThread_inputOrder_witness :
    (createThread pAllOk ["a", "b", "c"]).tweets.length = 3 ∧
      (createThread pAllOk ["a", "b", "c"]).calls =
        [ApiCall.createTweet "a" none, ApiCall.createTweet "b" (some "x"),
         ApiCall.createTweet "c" (some "x")] := by
  have hp : ∀ i m o, ∃ t, pAllOk.tweet i m o = Except.ok t ∧ t.id ≠ "" := by
    intro i m o
    exact ⟨⟨"x", m⟩, rfl, show ("x" : String) ≠ "" from by decide⟩
  have h := createThread_inputOrder pAllOk ["a", "b", "c"] hp
  refine ⟨h.1, ?_⟩
  rw [h.2]
  decide

/-- Invariant of the createThread loop when calls before index k
succeed with truthy ids and the call at index k throws: exactly k - idx
more tweets are created, the failing call is made and nothing after it,
and the chaining of the performed calls is as in the all-success
case. -/
theorem createThreadAux_failAt (p : Provider) (k : Nat)
    (hok : ∀ i m o, i < k → ∃ t, p.tweet i m o = Except.ok t ∧ t.id ≠ "")
    (hfail : ∀ m o, ∃ e, p.tweet k m o = Except.error e) :
    ∀ (msgs : List String) (idx : Nat) (prev : Option String),
      idx ≤ k → k - idx < msgs.length →
      (createThreadAux p idx prev msgs).tweets.length = k - idx ∧
      (createThreadAux p idx prev msgs).calls =
        List.zipWith ApiCall.createTweet (msgs.take (k - idx + 1))
          (truthyOpt prev :: (createThreadAux p idx prev msgs).tweets.map (fun t => some t.id)) ∧
      (createThreadAux p idx prev msgs).logs.map LogEntry.level =
        List.replicate (k - idx) LogLevel.info ∧
      (createThreadAux p idx prev msgs).err.isSome = true := by
  intro msgs
  induction msgs with
  | nil =>
      intro idx prev hle hlt
      simp at hlt
  | cons m rest ih =>
      intro idx prev hle hlt
      rcases Nat.lt_or_ge idx k with hik | hik
      · obtain ⟨t, ht, hid⟩ := hok idx m (truthyOpt prev) hik
        have hlt' : k - (idx + 1) < rest.length := by
          simp only [List.length_cons] at hlt
          omega
        obtain ⟨h1, h2, h3, h4⟩ := ih (idx + 1) (some t.id) hik hlt'
        rw [truthyOpt_some_of_ne hid] at h2
        have hkk : k - idx = (k - (idx + 1)) + 1 := by omega
        simp only [createThreadAux, ht]
        refine ⟨by simp [h1, hkk], ?_, by simp [h3, hkk, List.replicate_succ], h4⟩
        rw [hkk]
        simp [h2]
      · have hik' : idx = k := le_antisymm hle hik
        subst hik'
        obtain ⟨e, he⟩ := hfail m (truthyOpt prev)
        simp only [createThreadAux, he]
        refine ⟨by simp, ?_, by simp, by simp⟩
        simp [Nat.sub_self]

/-- C2: when the submission at index k fails (k not the last index),
createThread returns exactly the k successfully-created posts with
correct parent chaining, performs the k + 1 calls up to the failure and
no further submissions and no deletions, and logs the failure instead
of raising it. -/
theorem createThread_failurePrefix (p : Provider) (msgs : List String) (k : Nat)
    (hk : k + 1 < msgs.length)
    (hok : ∀ i m o, i < k → ∃ t, p.tweet i m o = Except.ok t ∧ t.id ≠ "")
    (hfail : ∀ m o, ∃ e, p.tweet k m o = Except.error e) :
    (createThread p msgs).tweets.length = k ∧
      (createThread p msgs).calls =
        List.zipWith ApiCall.createTweet (msgs.take (k + 1))
          (none :: (createThread p msgs).tweets.map (fun t => some t.id)) ∧
      (createThread p msgs).logs.map LogEntry.level =
        List.replicate k LogLevel.info ++ [LogLevel.error] := by
  have hlt : k - 0 < msgs.length := by omega
  obtain ⟨h1, h2, h3, h4⟩ := createThreadAux_failAt p k hok hfail msgs 0 none (Nat.zero_le k) hlt
  obtain ⟨e, he⟩ := Option.isSome_iff_exists.mp h4
  simp only [Nat.sub_zero] at h1 h2 h3
  rw [show truthyOpt none = none from rfl] at h2
  refine ⟨?_, ?_, ?_⟩ <;> simp [createThread, he, h1, h2, h3]

/-- Witness for C2: a three-message thread whose second submission is
rejected yields one post, two calls and a trailing error log. -/
theorem createThread_failurePrefix_witness :
    (createThread pFailAt1 ["a", "b", "c"]).tweets.length = 1 ∧
      (createThread pFailAt1 ["a", "b", "c"]).calls =
        [ApiCall.createTweet "a" none, ApiCall.createTweet "b" (some "x")] ∧
      (createThread pFailAt1 ["a", "b", "c"]).logs.map LogEntry.level =
        [LogLevel.info, LogLevel.error] := by
  have hok : ∀ i m o, i < 1 → ∃ t, pFailAt1.tweet i m o = Except.ok t ∧ t.id ≠ "" := by
    intro i m o hi
    refine ⟨⟨"x", m⟩, ?_, show ("x" : String) ≠ "" from by decide⟩
    show (if i < 1 then Except.ok (TweetData.mk "x" m)
        else Except.error (ApiError.mk (some 500) "boom")) =
      Except.ok (TweetData.mk "x" m)
    exact if_pos hi
  have hfail : ∀ m o, ∃ e, pFailAt1.tweet 1 m o = Except.error e := by
    intro m o
    exact ⟨⟨some 500, "boom"⟩, by simp [pFailAt1]⟩
  have h := createThread_failurePrefix pFailAt1 ["a", "b", "c"] 1 (by decide) hok hfail
  refine ⟨h.1, ?_, ?_⟩
  · rw [h.2.1]
    decide
  · rw [h.2.2]
    decide

theorem createThreadAux_length_le (p : Provider) :
    ∀ (msgs : List String) (idx : Nat) (prev : Option String),
      (createThreadAux p idx prev msgs).tweets.length ≤ msgs.length := by
  intro msgs
  induction msgs with
  | nil =>
      intro idx prev
      simp [createThreadAux]
  | cons m rest ih =>
      intro idx prev
      cases ht : p.tweet idx m (truthyOpt prev) with
      | ok t =>
          have h := ih (idx + 1) (some t.id)
          simp only [createThreadAux, ht, List.length_cons]
          simpa using h
      | error e =>
          simp [createThreadAux, ht]

/-- C10: the thread returned never has more posts than the input has
messages, and the empty input yields the empty thread with no network
calls and no logs. -/
theorem createThread_length (p : Provider) (msgs : List String) :
    (createThread p msgs).tweets.length ≤ msgs.length ∧
      createThread p [] = ⟨[], [], []⟩ := by
  constructor
  · have h := createThreadAux_length_le p msgs 0 none
    unfold createThread
    split <;> simpa using h
  · rfl
